import Mathlib

/-!
# Verification of the ManageSieve HAVESPACE handler

A shallow embedding of `crates/managesieve/src/op/havespace.rs`
(`Session::handle_havespace`) together with the token and error
machinery it relies on, followed by theorems settling the specified
properties of the capacity-check command.

The handler is modelled as a pure function from the session's
environment (access token fields and the results the storage
collaborators would return) and the request's token list to the
`trc::Result<Vec<u8>>` outcome, paired with the trace of storage
operations performed.  Machine integers are modelled as `Nat`/`Int`
with explicit two's-complement wrapping where the Rust code casts
(`size as i64`, `quota as i64`) or adds `i64` values.
-/

namespace Stalwart

/-- A request token as produced by the imap_proto receiver: an argument
carrying an (already unescaped) string, or one of the structural tokens,
on which `unwrap_string` fails. -/
inductive Token where
  | argument (s : String)
  | parenthesisOpen
  | parenthesisClose
  | bracketOpen
  | bracketClose
  | gt
  | lt
  | dot
  | nil
deriving DecidableEq

/-- `Token::unwrap_string().ok()`: the carried string for an argument
token, `none` for the structural tokens. -/
def Token.unwrap_string : Token → Option String
  | .argument s => some s
  | _ => none

/-- The trc error causes this handler touches. -/
inductive Cause where
  | manageSieve
  | store
  | jmap
  | network
deriving DecidableEq

/-- The machine-readable response codes of the ManageSieve status
encoder (the subset relevant here; `quotaMaxSize` is the one the
handler attaches). -/
inductive ResponseCode where
  | quotaMaxSize
  | quotaMaxScripts
  | quota
  | nonExistent
  | alreadyExists
  | tryLater
  | active
deriving DecidableEq

/-- A `trc::Error`: cause, human-readable details, optional
machine-readable code, and the list of context locations accumulated by
`caused_by`. -/
structure TrcError where
  cause : Cause
  details : String
  code : Option ResponseCode
  ctx : List String
deriving DecidableEq

/-- `trc::Cause::ManageSieve.into_err().details(d)`: a ManageSieve error
with no response code and no context. -/
def sieveErr (d : String) : TrcError :=
  { cause := Cause.manageSieve, details := d, code := none, ctx := [] }

/-- `err.caused_by(trc::location!())`: the same error with one more
context location recorded. -/
def TrcError.caused_by (e : TrcError) (loc : String) : TrcError :=
  { e with ctx := e.ctx ++ [loc] }

/-- The `trc::location!()` string of the `get_used_quota` call site in
`handle_havespace`. -/
def havespaceLocation : String := "crates/managesieve/src/op/havespace.rs:51"

/-- The error built on the quota-exceeded path:
`Cause::ManageSieve.into_err().details("Quota exceeded.").code(ResponseCode::QuotaMaxSize)`. -/
def quotaExceededErr : TrcError :=
  { cause := Cause.manageSieve, details := "Quota exceeded.",
    code := some ResponseCode.quotaMaxSize, ctx := [] }

/-- Modelled from the spec: the Status Response Encoder's success value
(`StatusResponse::Ok(message)` in `crates/managesieve/src/core`, which
is not part of the visible source); the handler only ever builds
`StatusResponse::ok("")`. -/
inductive StatusResponse where
  | ok (message : String)
deriving DecidableEq

/-- Modelled from the spec: `StatusResponse::into_bytes` — the wire
success line, a status token plus an optional human message
(spec section 6: success line format). -/
def StatusResponse.into_bytes : StatusResponse → String
  | .ok m => if m.isEmpty then "OK\r\n" else "OK \x22" ++ m ++ "\x22\r\n"

/-- One call against the storage collaborator.  `validateName` and
`getUsedQuota` are the two reads the capacity check can perform;
`writeScript` is modelled from the spec: the store-script sibling
command's storage write (spec sections 4.2 and 5), which a capacity
check must never emit. -/
inductive StorageOp where
  | validateName (accountId : Nat) (name : String)
  | getUsedQuota (accountId : Nat)
  | writeScript (accountId : Nat) (name : String) (size : Nat)
deriving DecidableEq

/-- Whether a storage operation mutates storage. -/
def StorageOp.isWrite : StorageOp → Bool
  | .writeScript _ _ _ => true
  | _ => false

/-- The session environment the handler reads: the access token's
primary id and quota ceiling, and the responses the storage
collaborators return (`validate_name` lives outside the visible source
and `get_used_quota` is the quota oracle; both are kept abstract as
response functions). -/
structure Session where
  primary_id : Nat
  quota : Nat
  validate_name : Nat → String → Except TrcError Unit
  get_used_quota : Nat → Except TrcError Int

/-- The i64 maximum, `9223372036854775807`. -/
def maxI64 : Int := 2 ^ 63 - 1

/-- Two's-complement interpretation of a `usize` value cast with
`as i64`. -/
def toI64 (n : Nat) : Int :=
  let m : Nat := n % 2 ^ 64
  if m < 2 ^ 63 then (m : Int) else (m : Int) - 2 ^ 64

/-- Wrapping of an `i64` addition result into the i64 range (release
mode two's-complement semantics). -/
def wrap64 (x : Int) : Int :=
  (x + 2 ^ 63) % 2 ^ 64 - 2 ^ 63

/-- Rust's `str::parse::<u64-wide usize>` restricted to what the
handler needs: an optional leading plus sign, then one or more ASCII
digits, value below `2 ^ 64`; anything else is a parse error. -/
def parseUsize (s : String) : Option Nat :=
  match (match s.data with
         | c :: rest => if c = '+' then rest else c :: rest
         | [] => []) with
  | [] => none
  | cs =>
    if cs.all (fun c => c.isDigit) then
      if cs.foldl (fun a c => a * 10 + (c.toNat - 48)) 0 < 2 ^ 64 then
        some (cs.foldl (fun a c => a * 10 + (c.toNat - 48)) 0)
      else none
    else none

/-- `Session::handle_havespace`: draw the script-name and script-size
tokens off the request token iterator, validate the name, then check
`quota == 0 || size as i64 + used <= quota as i64`.  Returns the
`trc::Result<Vec<u8>>` outcome together with the trace of storage
operations performed, in order. -/
def handle_havespace (s : Session) (tokens : List Token) :
    Except TrcError String × List StorageOp :=
  match tokens with
  | [] => (Except.error (sieveErr "Expected script name as a parameter."), [])
  | t1 :: rest1 =>
    match t1.unwrap_string with
    | none => (Except.error (sieveErr "Expected script name as a parameter."), [])
    | some name =>
      match rest1 with
      | [] => (Except.error (sieveErr "Expected script size as a parameter."), [])
      | t2 :: _ =>
        match t2.unwrap_string with
        | none => (Except.error (sieveErr "Expected script size as a parameter."), [])
        | some sizeStr =>
          match parseUsize sizeStr with
          | none => (Except.error (sieveErr "Invalid size parameter."), [])
          | some size =>
            match s.validate_name s.primary_id name with
            | Except.error e => (Except.error e, [StorageOp.validateName s.primary_id name])
            | Except.ok _ =>
              if s.quota = 0 then
                (Except.ok (StatusResponse.ok "").into_bytes,
                 [StorageOp.validateName s.primary_id name])
              else
                match s.get_used_quota s.primary_id with
                | Except.error e =>
                  (Except.error (e.caused_by havespaceLocation),
                   [StorageOp.validateName s.primary_id name,
                    StorageOp.getUsedQuota s.primary_id])
                | Except.ok used =>
                  if wrap64 (toI64 size + used) ≤ toI64 s.quota then
                    (Except.ok (StatusResponse.ok "").into_bytes,
                     [StorageOp.validateName s.primary_id name,
                      StorageOp.getUsedQuota s.primary_id])
                  else
                    (Except.error quotaExceededErr,
                     [StorageOp.validateName s.primary_id name,
                      StorageOp.getUsedQuota s.primary_id])

/-- Modelled from the spec: the effect of a storage operation on the
collaborator state the session observes.  Reads leave it unchanged; a
script write adds the script's size to the account's used-quota figure
(spec sections 4.2 and 5: mutation is owned by the write path). -/
def applyOp (s : Session) (op : StorageOp) : Session :=
  match op with
  | .validateName _ _ => s
  | .getUsedQuota _ => s
  | .writeScript a _ sz =>
    { s with get_used_quota := fun a2 =>
        if a2 = a then (s.get_used_quota a2).map (fun u => u + (sz : Int))
        else s.get_used_quota a2 }

/-- Left fold of `applyOp` over a trace of storage operations. -/
def applyOps (s : Session) (ops : List StorageOp) : Session :=
  ops.foldl applyOp s

/-- A session whose account (id 7) has ceiling 1000 and 400 bytes used;
name validation accepts. -/
def sessionOk : Session :=
  ⟨7, 1000, fun _ _ => Except.ok (), fun _ => Except.ok 400⟩

/-- A session whose account (id 5) has ceiling 0 (unlimited); the quota
oracle would even fail if consulted. -/
def sessionZero : Session :=
  ⟨5, 0, fun _ _ => Except.ok (),
   fun _ => Except.error { cause := Cause.store, details := "Storage failure.",
                           code := none, ctx := [] }⟩

/-- The storage error used by `sessionErr`. -/
def errStore : TrcError :=
  { cause := Cause.store, details := "Storage failure.", code := none, ctx := [] }

/-- A session whose account (id 9) has ceiling 1000 and whose quota
oracle fails with `errStore`. -/
def sessionErr : Session :=
  ⟨9, 1000, fun _ _ => Except.ok (), fun _ => Except.error errStore⟩

/-- The name-validation error used by `sessionInval`. -/
def errName : TrcError :=
  { cause := Cause.manageSieve, details := "Invalid script name.", code := none, ctx := [] }

/-- A session whose account (id 11) has ceiling 10 with nothing used,
but whose name validator rejects every name with `errName`. -/
def sessionInval : Session :=
  ⟨11, 10, fun _ _ => Except.error errName, fun _ => Except.ok 0⟩

/-- A session whose account (id 1) has ceiling 1 and 0 bytes used; name
validation accepts. -/
def sessionC1 : Session :=
  ⟨1, 1, fun _ _ => Except.ok (), fun _ => Except.ok 0⟩

/-- A session whose account (id 3) has ceiling 1 and 0 bytes used; name
validation accepts. -/
def sessionC3 : Session :=
  ⟨3, 1, fun _ _ => Except.ok (), fun _ => Except.ok 0⟩

/-! ## Helper lemmas -/

theorem toI64_of_le (n : Nat) (h : (n : Int) ≤ maxI64) : toI64 n = n := by
  unfold toI64
  unfold maxI64 at h
  have hn : n < 2 ^ 63 := by omega
  have hn2 : n < 2 ^ 64 := by omega
  rw [Nat.mod_eq_of_lt hn2, if_pos hn]

theorem wrap64_of_range (x : Int) (h1 : -(2 ^ 63) ≤ x) (h2 : x < 2 ^ 63) :
    wrap64 x = x := by
  unfold wrap64
  have h3 : (0 : Int) ≤ x + 2 ^ 63 := by omega
  have h4 : x + 2 ^ 63 < 2 ^ 64 := by omega
  rw [Int.emod_eq_of_lt h3 h4]
  ring

theorem handle_havespace_no_write (s : Session) (toks : List Token) :
    ∀ op ∈ (handle_havespace s toks).2, op.isWrite = false := by
  rcases toks with _ | ⟨t1, rest1⟩
  · simp [handle_havespace]
  rcases h1 : t1.unwrap_string with _ | name
  · simp [handle_havespace, h1]
  rcases rest1 with _ | ⟨t2, rest2⟩
  · simp [handle_havespace, h1]
  rcases h2 : t2.unwrap_string with _ | sizeStr
  · simp [handle_havespace, h1, h2]
  rcases h3 : parseUsize sizeStr with _ | size
  · simp [handle_havespace, h1, h2, h3]
  rcases h4 : s.validate_name s.primary_id name with e | u
  · simp [handle_havespace, h1, h2, h3, h4, StorageOp.isWrite]
  by_cases h5 : s.quota = 0
  · simp [handle_havespace, h1, h2, h3, h4, h5, StorageOp.isWrite]
  rcases h6 : s.get_used_quota s.primary_id with e | used
  · simp [handle_havespace, h1, h2, h3, h4, h5, h6, StorageOp.isWrite]
  by_cases h7 : wrap64 (toI64 size + used) ≤ toI64 s.quota
  · simp [handle_havespace, h1, h2, h3, h4, h5, h6, h7, StorageOp.isWrite]
  · simp [handle_havespace, h1, h2, h3, h4, h5, h6, h7, StorageOp.isWrite]

theorem applyOps_of_no_write (s : Session) (ops : List StorageOp)
    (h : ∀ op ∈ ops, op.isWrite = false) : applyOps s ops = s := by
  induction ops with
  | nil => rfl
  | cons op rest ih =>
    have hop : applyOp s op = s := by
      cases op with
      | validateName a n => rfl
      | getUsedQuota a => rfl
      | writeScript a n sz =>
        have := h _ (List.mem_cons_self _ _)
        simp [StorageOp.isWrite] at this
    have hrest : ∀ op2 ∈ rest, StorageOp.isWrite op2 = false := by
      intro op2 hmem
      exact h _ (List.mem_cons_of_mem _ hmem)
    calc applyOps s (op :: rest) = applyOps (applyOp s op) rest := rfl
      _ = applyOps s rest := by rw [hop]
      _ = s := ih hrest

/-! ## Claim theorems -/

/-- C2: for every account whose access-token quota ceiling equals 0,
the capacity check succeeds for any valid name and any size token that
parses as a non-negative integer, regardless of current usage, and the
quota oracle (`get_used_quota`) is not consulted: the trace contains
only the name validation. -/
theorem havespace_unlimited_quota_skips_oracle (s : Session)
    (t1 t2 : Token) (rest : List Token) (name sizeStr : String) (size : Nat)
    (hq : s.quota = 0)
    (h1 : t1.unwrap_string = some name)
    (h2 : t2.unwrap_string = some sizeStr)
    (hs : parseUsize sizeStr = some size)
    (hv : s.validate_name s.primary_id name = Except.ok ()) :
    handle_havespace s (t1 :: t2 :: rest)
      = (Except.ok (StatusResponse.into_bytes (StatusResponse.ok "")),
         [StorageOp.validateName s.primary_id name]) := by
  simp [handle_havespace, h1, h2, hs, hv, hq]

/-- Witness for C2 at ceiling 0, used quota oracle failing, size token
`999999999`. -/
theorem havespace_unlimited_quota_skips_oracle_witness :
    handle_havespace sessionZero
        [Token.argument "script1", Token.argument "999999999"]
      = (Except.ok (StatusResponse.into_bytes (StatusResponse.ok "")),
         [StorageOp.validateName 5 "script1"]) :=
  havespace_unlimited_quota_skips_oracle sessionZero
    (Token.argument "script1") (Token.argument "999999999") []
    "script1" "999999999" 999999999 rfl rfl rfl rfl rfl

/-- C4: when the name token is a valid string but name validation
fails, and the size token parses, the handler returns exactly the
name-validation error (never the quota-exceeded error) and never
consults the quota oracle: name validation runs strictly before the
quota decision and short-circuits it, whatever the ceiling and usage. -/
theorem havespace_name_validation_short_circuits_quota (s : Session)
    (t1 t2 : Token) (rest : List Token) (name sizeStr : String)
    (size : Nat) (e : TrcError)
    (h1 : t1.unwrap_string = some name)
    (h2 : t2.unwrap_string = some sizeStr)
    (hs : parseUsize sizeStr = some size)
    (hv : s.validate_name s.primary_id name = Except.error e) :
    handle_havespace s (t1 :: t2 :: rest)
      = (Except.error e, [StorageOp.validateName s.primary_id name]) := by
  simp [handle_havespace, h1, h2, hs, hv]

/-- Witness for C4: ceiling 10, usage 0, size `100000` which alone
exceeds the ceiling; the invalid name wins. -/
theorem havespace_name_validation_short_circuits_quota_witness :
    handle_havespace sessionInval
        [Token.argument "bad/name", Token.argument "100000"]
      = (Except.error errName, [StorageOp.validateName 11 "bad/name"]) :=
  havespace_name_validation_short_circuits_quota sessionInval
    (Token.argument "bad/name") (Token.argument "100000") []
    "bad/name" "100000" 100000 errName rfl rfl rfl rfl

/-- C5: the handler parses exactly two positional tokens left to right:
an absent name token fails naming the script-name parameter, a present
name with an absent size token fails naming the size parameter, and a
size token that does not parse as an integer fails with a syntax error
distinct from both missing-parameter errors. -/
theorem havespace_positional_token_errors (s : Session) (t1 t2 : Token)
    (rest : List Token) (name sizeStr : String) :
    ((handle_havespace s []).1
        = Except.error (sieveErr "Expected script name as a parameter.")) ∧
    (t1.unwrap_string = some name →
      (handle_havespace s [t1]).1
        = Except.error (sieveErr "Expected script size as a parameter.")) ∧
    (t1.unwrap_string = some name → t2.unwrap_string = some sizeStr →
      parseUsize sizeStr = none →
      (handle_havespace s (t1 :: t2 :: rest)).1
        = Except.error (sieveErr "Invalid size parameter.")) ∧
    sieveErr "Invalid size parameter."
      ≠ sieveErr "Expected script name as a parameter." ∧
    sieveErr "Invalid size parameter."
      ≠ sieveErr "Expected script size as a parameter." := by
  refine ⟨rfl, ?_, ?_, by decide, by decide⟩
  · intro h1
    simp [handle_havespace, h1]
  · intro h1 h2 hp
    simp [handle_havespace, h1, h2, hp]

/-- Witness for C5: one token only, then a non-numeric size token. -/
theorem havespace_positional_token_errors_witness :
    (handle_havespace sessionOk [Token.argument "script1"]).1
        = Except.error (sieveErr "Expected script size as a parameter.") ∧
    (handle_havespace sessionOk
        [Token.argument "script1", Token.argument "abc"]).1
        = Except.error (sieveErr "Invalid size parameter.") :=
  ⟨(havespace_positional_token_errors sessionOk (Token.argument "script1")
      (Token.argument "abc") [] "script1" "abc").2.1 rfl,
   (havespace_positional_token_errors sessionOk (Token.argument "script1")
      (Token.argument "abc") [] "script1" "abc").2.2.1 rfl rfl rfl⟩

/-- C6: with a positive ceiling, if the quota oracle fails with a
storage error then the handler returns that error with the call-site
context added, and never a success response. -/
theorem havespace_oracle_failure_propagates (s : Session)
    (t1 t2 : Token) (rest : List Token) (name sizeStr : String)
    (size : Nat) (e : TrcError)
    (h1 : t1.unwrap_string = some name)
    (h2 : t2.unwrap_string = some sizeStr)
    (hs : parseUsize sizeStr = some size)
    (hv : s.validate_name s.primary_id name = Except.ok ())
    (hq : s.quota ≠ 0)
    (he : s.get_used_quota s.primary_id = Except.error e) :
    handle_havespace s (t1 :: t2 :: rest)
      = (Except.error (e.caused_by havespaceLocation),
         [StorageOp.validateName s.primary_id name,
          StorageOp.getUsedQuota s.primary_id]) ∧
    ∀ bs, (handle_havespace s (t1 :: t2 :: rest)).1 ≠ Except.ok bs := by
  have h : handle_havespace s (t1 :: t2 :: rest)
      = (Except.error (e.caused_by havespaceLocation),
         [StorageOp.validateName s.primary_id name,
          StorageOp.getUsedQuota s.primary_id]) := by
    simp [handle_havespace, h1, h2, hs, hv, hq, he]
  exact ⟨h, by intro bs hc; rw [h] at hc; exact Except.noConfusion hc⟩

/-- Witness for C6: ceiling 1000, oracle failing with `errStore`. -/
theorem havespace_oracle_failure_propagates_witness :
    handle_havespace sessionErr
        [Token.argument "script1", Token.argument "500"]
      = (Except.error (errStore.caused_by havespaceLocation),
         [StorageOp.validateName 9 "script1", StorageOp.getUsedQuota 9]) :=
  (havespace_oracle_failure_propagates sessionErr
    (Token.argument "script1") (Token.argument "500") []
    "script1" "500" 500 errStore rfl rfl rfl rfl (by decide) rfl).1

/-- C9: two requests that agree on their first two tokens but differ in
the tokens beyond the second produce identical outcomes (result and
storage trace): extra positional tokens are silently ignored. -/
theorem havespace_ignores_extra_tokens (s : Session) (t1 t2 : Token)
    (rest rest2 : List Token) :
    handle_havespace s (t1 :: t2 :: rest)
      = handle_havespace s (t1 :: t2 :: rest2) := by
  simp only [handle_havespace]

/-- C10: a present name or size token on which `unwrap_string` fails is
reported with the same missing-parameter error as when the token is
entirely absent, not the invalid-value error. -/
theorem havespace_nonstring_token_as_missing (s : Session) (t1 t2 : Token)
    (rest1 rest2 : List Token) (name : String) :
    (t1.unwrap_string = none →
      (handle_havespace s (t1 :: rest1)).1 = (handle_havespace s []).1) ∧
    (t1.unwrap_string = some name → t2.unwrap_string = none →
      (handle_havespace s (t1 :: t2 :: rest2)).1
        = (handle_havespace s [t1]).1) := by
  constructor
  · intro h1
    cases rest1 with
    | nil => simp [handle_havespace, h1]
    | cons t rest => simp [handle_havespace, h1]
  · intro h1 h2
    simp [handle_havespace, h1, h2]

/-- Witness for C10: a parenthesis where the name should be, and a
parenthesis where the size should be. -/
theorem havespace_nonstring_token_as_missing_witness :
    (handle_havespace sessionOk
        [Token.parenthesisOpen, Token.argument "500"]).1
      = (handle_havespace sessionOk []).1 ∧
    (handle_havespace sessionOk
        [Token.argument "script1", Token.parenthesisOpen]).1
      = (handle_havespace sessionOk [Token.argument "script1"]).1 :=
  ⟨(havespace_nonstring_token_as_missing sessionOk Token.parenthesisOpen
      (Token.argument "500") [Token.argument "500"] [] "script1").1 rfl,
   (havespace_nonstring_token_as_missing sessionOk (Token.argument "script1")
      Token.parenthesisOpen [Token.argument "500"] [] "script1").2 rfl rfl⟩

/-- C7: on every successful capacity check the returned bytes are
exactly the encoding of an Ok status with an empty message, and on
every path (success or failure) the storage trace contains no write
operation: the check is advisory only. -/
theorem havespace_success_bytes_and_no_writes (s : Session)
    (toks : List Token) :
    (∀ bs, (handle_havespace s toks).1 = Except.ok bs →
      bs = StatusResponse.into_bytes (StatusResponse.ok "")) ∧
    (∀ op ∈ (handle_havespace s toks).2, op.isWrite = false) := by
  refine ⟨?_, handle_havespace_no_write s toks⟩
  intro bs hok
  rcases toks with _ | ⟨t1, rest1⟩
  · exact absurd hok (by simp [handle_havespace])
  rcases h1 : t1.unwrap_string with _ | name
  · exact absurd hok (by simp [handle_havespace, h1])
  rcases rest1 with _ | ⟨t2, rest2⟩
  · exact absurd hok (by simp [handle_havespace, h1])
  rcases h2 : t2.unwrap_string with _ | sizeStr
  · exact absurd hok (by simp [handle_havespace, h1, h2])
  rcases h3 : parseUsize sizeStr with _ | size
  · exact absurd hok (by simp [handle_havespace, h1, h2, h3])
  rcases h4 : s.validate_name s.primary_id name with e | u
  · exact absurd hok (by simp [handle_havespace, h1, h2, h3, h4])
  by_cases h5 : s.quota = 0
  · have := hok
    simp [handle_havespace, h1, h2, h3, h4, h5] at this
    exact this.symm
  rcases h6 : s.get_used_quota s.primary_id with e | used
  · exact absurd hok (by simp [handle_havespace, h1, h2, h3, h4, h5, h6])
  by_cases h7 : wrap64 (toI64 size + used) ≤ toI64 s.quota
  · have := hok
    simp [handle_havespace, h1, h2, h3, h4, h5, h6, h7] at this
    exact this.symm
  · exact absurd hok (by simp [handle_havespace, h1, h2, h3, h4, h5, h6, h7])

/-- Witness for C7: a concrete successful check returns the Ok
encoding. -/
theorem havespace_success_bytes_and_no_writes_witness :
    StatusResponse.into_bytes (StatusResponse.ok "") = "OK\r\n" ∧
    StorageOp.isWrite (StorageOp.validateName 5 "script1") = false := by
  have h := havespace_success_bytes_and_no_writes sessionZero
    [Token.argument "script1", Token.argument "10"]
  have htr : (handle_havespace sessionZero
      [Token.argument "script1", Token.argument "10"]).2
      = [StorageOp.validateName 5 "script1"] := rfl
  refine ⟨(h.1 "OK\r\n" rfl).symm, h.2 _ ?_⟩
  rw [htr]
  exact List.mem_cons_self _ _

/-- C8: for a fixed request, access token and storage state, running
the capacity check and then replaying its own storage trace against the
state leaves the state unchanged, so an immediately repeated identical
check yields an identical outcome: the handler is deterministic and
mutates no hidden state. -/
theorem havespace_idempotent (s : Session) (toks : List Token) :
    handle_havespace (applyOps s (handle_havespace s toks).2) toks
      = handle_havespace s toks := by
  rw [applyOps_of_no_write s (handle_havespace s toks).2
    (handle_havespace_no_write s toks)]

/-- C1 (counterexample to the claim as stated): with ceiling 1 and used
quota 0, the size token `9223372036854775808` (so S + U > ceiling, and
the claim demands a QuotaMaxSize failure) makes the capacity check
succeed, because `size as i64` wraps to a negative value. -/
theorem havespace_quota_decision_counterexample :
    (9223372036854775808 : Int) + 0 > (1 : Int) ∧
    (handle_havespace sessionC1
        [Token.argument "s1", Token.argument "9223372036854775808"]).1
      = Except.ok (StatusResponse.into_bytes (StatusResponse.ok "")) :=
  ⟨by norm_num, rfl⟩

/-- C1 as amended: for every account with quota ceiling > 0 that fits
in i64, candidate size S parsed from the size token and current used
quota U with 0 ≤ U and S + U ≤ i64::MAX, the capacity check succeeds
iff S + U ≤ ceiling, and when S + U > ceiling it fails with the
QuotaMaxSize response code and the message `Quota exceeded.`. -/
theorem havespace_quota_decision_in_i64_range (s : Session)
    (t1 t2 : Token) (rest : List Token) (name sizeStr : String)
    (size : Nat) (used : Int)
    (h1 : t1.unwrap_string = some name)
    (h2 : t2.unwrap_string = some sizeStr)
    (hs : parseUsize sizeStr = some size)
    (hv : s.validate_name s.primary_id name = Except.ok ())
    (hq0 : 0 < s.quota)
    (hq1 : (s.quota : Int) ≤ maxI64)
    (hu : s.get_used_quota s.primary_id = Except.ok used)
    (hu0 : 0 ≤ used)
    (hsum : (size : Int) + used ≤ maxI64) :
    ((handle_havespace s (t1 :: t2 :: rest)).1
        = Except.ok (StatusResponse.into_bytes (StatusResponse.ok ""))
      ↔ (size : Int) + used ≤ (s.quota : Int)) ∧
    ((s.quota : Int) < (size : Int) + used →
      (handle_havespace s (t1 :: t2 :: rest)).1
        = Except.error quotaExceededErr) := by
  have hqne : ¬s.quota = 0 := by omega
  have hszle : (size : Int) ≤ maxI64 := by
    have : (0 : Int) ≤ (size : Int) := Int.ofNat_nonneg size
    omega
  have hsz : toI64 size = (size : Int) := toI64_of_le size hszle
  have hqz : toI64 s.quota = (s.quota : Int) := toI64_of_le s.quota hq1
  have hw : wrap64 (toI64 size + used) = (size : Int) + used := by
    rw [hsz]
    refine wrap64_of_range _ ?_ ?_
    · have : (0 : Int) ≤ (size : Int) := Int.ofNat_nonneg size
      omega
    · unfold maxI64 at hsum
      omega
  by_cases hle : (size : Int) + used ≤ (s.quota : Int)
  · have hcond : wrap64 (toI64 size + used) ≤ toI64 s.quota := by
      rw [hw, hqz]; exact hle
    constructor
    · simp [handle_havespace, h1, h2, hs, hv, hqne, hu, hcond, hle]
    · intro hgt; omega
  · have hcond : ¬wrap64 (toI64 size + used) ≤ toI64 s.quota := by
      rw [hw, hqz]; exact hle
    constructor
    · simp only [handle_havespace, h1, h2, hs, hv, hu, if_neg hqne,
        if_neg hcond]
      constructor
      · intro hc; exact absurd hc (by simp)
      · intro hc; exact absurd hc hle
    · intro _
      simp only [handle_havespace, h1, h2, hs, hv, hu, if_neg hqne,
        if_neg hcond]

/-- Witness for the amended C1: ceiling 1000, used 400, size `500`
succeeds. -/
theorem havespace_quota_decision_in_i64_range_witness :
    (handle_havespace sessionOk
        [Token.argument "script1", Token.argument "500"]).1
      = Except.ok (StatusResponse.into_bytes (StatusResponse.ok "")) :=
  (havespace_quota_decision_in_i64_range sessionOk
      (Token.argument "script1") (Token.argument "500") []
      "script1" "500" 500 400 rfl rfl rfl rfl (by decide) (by decide)
      rfl (by decide) (by decide)).1.mpr (by decide)

/-- C3 (counterexample to the claim as stated): the size token
`10000000000000000000` parses to a value above i64::MAX, yet it is not
rejected as a syntax error: it reaches the quota comparison (the oracle
is consulted) with a wrapped negative value and the check succeeds. -/
theorem havespace_size_wrap_counterexample :
    parseUsize "10000000000000000000" = some 10000000000000000000 ∧
    (9223372036854775807 : Nat) < 10000000000000000000 ∧
    handle_havespace sessionC3
        [Token.argument "s2", Token.argument "10000000000000000000"]
      = (Except.ok (StatusResponse.into_bytes (StatusResponse.ok "")),
         [StorageOp.validateName 3 "s2", StorageOp.getUsedQuota 3]) :=
  ⟨rfl, by norm_num, rfl⟩

/-- C3 as amended: a size token that is negative, non-numeric or does
not fit in the unsigned 64-bit `usize` (value ≥ 2^64) is rejected as
the `Invalid size parameter.` syntax error before any quota arithmetic
(no storage operation is performed); every size the parser does accept
is below 2^64 — but values in (i64::MAX, 2^64) are accepted and reach
the comparison wrapped, as the counterexample shows. -/
theorem havespace_size_parse_guard (s : Session) (t1 t2 : Token)
    (rest : List Token) (name sizeStr : String)
    (h1 : t1.unwrap_string = some name)
    (h2 : t2.unwrap_string = some sizeStr) :
    (parseUsize sizeStr = none →
      handle_havespace s (t1 :: t2 :: rest)
        = (Except.error (sieveErr "Invalid size parameter."), [])) ∧
    (∀ n, parseUsize sizeStr = some n → n < 2 ^ 64) := by
  constructor
  · intro hp
    simp [handle_havespace, h1, h2, hp]
  · intro n hp
    unfold parseUsize at hp
    split at hp
    · simp at hp
    · split at hp
      · split at hp
        · simp at hp
          omega
        · simp at hp
      · simp at hp

/-- Witness for the amended C3: the size tokens `-5` and
`18446744073709551616` (= 2^64) are both rejected before any storage
operation. -/
theorem havespace_size_parse_guard_witness :
    handle_havespace sessionOk
        [Token.argument "script1", Token.argument "-5"]
      = (Except.error (sieveErr "Invalid size parameter."), []) ∧
    handle_havespace sessionOk
        [Token.argument "script1", Token.argument "18446744073709551616"]
      = (Except.error (sieveErr "Invalid size parameter."), []) :=
  ⟨(havespace_size_parse_guard sessionOk (Token.argument "script1")
      (Token.argument "-5") [] "script1" "-5" rfl rfl).1 rfl,
   (havespace_size_parse_guard sessionOk (Token.argument "script1")
      (Token.argument "18446744073709551616") [] "script1"
      "18446744073709551616" rfl rfl).1 rfl⟩

end Stalwart
